import Mathlib

/-!
Verification of the aarch64 frame classifier `tdep_stash_frame`
(src/native/external/libunwind/src/aarch64/Gstash_frame.c).

The classifier inspects the DWARF register state computed for the current
instruction pointer and, when the frame has the canonical aarch64 shape,
stashes a compact descriptor into the cursor's `frame_info` record.

Register values stored in the DWARF register state are 64-bit machine words;
the code always reads them through a signed cast (`(long)rs->reg.val[...]`),
so we model them as mathematical integers read as signed 64-bit contents.
The descriptor's offset fields are 30-bit signed bitfields; assignments to
them are modelled with explicit wrapping (`wrap30`).
-/

/-- The `dwarf_where_t` enumeration of libunwind: where a register's
previous value lives. -/
inductive DwarfWhere
  /-- `DWARF_WHERE_UNDEF`: register isn't saved. -/
  | undef
  /-- `DWARF_WHERE_SAME`: register has same value as in the previous frame. -/
  | same
  /-- `DWARF_WHERE_CFA`: register's value is the canonical frame address. -/
  | cfa
  /-- `DWARF_WHERE_CFAREL`: register saved at CFA-relative address. -/
  | cfarel
  /-- `DWARF_WHERE_REG`: register saved in another register. -/
  | reg
  /-- `DWARF_WHERE_EXPR`: register saved at address given by a DWARF expression. -/
  | expr
  /-- `DWARF_WHERE_VAL_EXPR`: register's value is given by a DWARF expression. -/
  | valExpr
deriving DecidableEq, Repr

/-- The `unw_tdep_frame_type_t` values used by the aarch64 port
(`UNW_AARCH64_FRAME_*`). -/
inductive FrameType
  /-- `UNW_AARCH64_FRAME_STANDARD`. -/
  | standard
  /-- `UNW_AARCH64_FRAME_SIGRETURN`. -/
  | sigreturn
  /-- `UNW_AARCH64_FRAME_OTHER`: the generic, non-cacheable shape. -/
  | other
  /-- `UNW_AARCH64_FRAME_GUESSED`. -/
  | guessed
deriving DecidableEq, Repr

/-- aarch64 frame-pointer register number (`UNW_AARCH64_X29`). -/
def FP : Int := 29

/-- aarch64 link-register number (`UNW_AARCH64_X30`). -/
def LR : Int := 30

/-- aarch64 stack-pointer register number (`UNW_AARCH64_SP`). -/
def SP : Int := 31

/-- The projection of `struct dwarf_reg_state` (plus the cursor's
`ret_addr_column`) that `tdep_stash_frame` reads: the `where`/`val` entries
of the CFA columns and of the FP, LR and SP register columns. -/
structure DwarfRegState where
  /-- `rs->reg.where[DWARF_CFA_REG_COLUMN]`. -/
  cfaWhere : DwarfWhere
  /-- `rs->reg.val[DWARF_CFA_REG_COLUMN]`: the CFA base register number. -/
  cfaVal : Int
  /-- `rs->reg.val[DWARF_CFA_OFF_COLUMN]`: the CFA offset. -/
  cfaOff : Int
  /-- `rs->ret_addr_column`: DWARF column holding the return address. -/
  ret_addr_column : Int
  /-- `rs->reg.where[FP]`. -/
  fpWhere : DwarfWhere
  /-- `rs->reg.val[FP]`. -/
  fpVal : Int
  /-- `rs->reg.where[LR]`. -/
  lrWhere : DwarfWhere
  /-- `rs->reg.val[LR]`. -/
  lrVal : Int
  /-- `rs->reg.where[SP]`. -/
  spWhere : DwarfWhere
  /-- `rs->reg.val[SP]`. -/
  spVal : Int
deriving DecidableEq, Repr

/-- The cursor's cached frame descriptor `unw_tdep_frame_t` (the fields
`tdep_stash_frame` touches).  `cfa_reg_offset`, `fp_cfa_offset`,
`lr_cfa_offset` and `sp_cfa_offset` are 30-bit signed bitfields in the C
struct. -/
structure UnwTdepFrame where
  frame_type : FrameType
  /-- `cfa_reg_sp`: whether the CFA base register is the stack pointer. -/
  cfa_reg_sp : Bool
  cfa_reg_offset : Int
  fp_cfa_offset : Int
  lr_cfa_offset : Int
  sp_cfa_offset : Int
deriving DecidableEq, Repr

/-- Wrapping of an integer into a signed 30-bit bitfield, as performed by
assignment to the `int64_t ... : 30` fields of `unw_tdep_frame_t`. -/
def wrap30 (v : Int) : Int := (v + 2 ^ 29) % 2 ^ 30 - 2 ^ 29

/-- The per-register admissibility check of lines 59-76: the register is
unsaved (`UNDEF`/`SAME`), equals the CFA, or is saved CFA-relative with a
small, non-sentinel offset (`labs((long)val) < (1 << 29) && val+1 != 0`). -/
def savedRegOk (w : DwarfWhere) (v : Int) : Prop :=
  w = DwarfWhere.undef ∨ w = DwarfWhere.same ∨ w = DwarfWhere.cfa ∨
    (w = DwarfWhere.cfarel ∧ v.natAbs < 2 ^ 29 ∧ v + 1 ≠ 0)

instance (w : DwarfWhere) (v : Int) : Decidable (savedRegOk w v) := by
  unfold savedRegOk; infer_instance

/-- The rule-set part of the guard of lines 54-76: CFA is register-relative
off FP or SP with `labs` of the offset below `1 << 29`, the return address
is in LR, and FP, LR, SP each pass `savedRegOk`. -/
def standardRules (rs : DwarfRegState) : Prop :=
  rs.cfaWhere = DwarfWhere.reg ∧
  (rs.cfaVal = FP ∨ rs.cfaVal = SP) ∧
  rs.cfaOff.natAbs < 2 ^ 29 ∧
  rs.ret_addr_column = LR ∧
  savedRegOk rs.fpWhere rs.fpVal ∧
  savedRegOk rs.lrWhere rs.lrVal ∧
  savedRegOk rs.spWhere rs.spVal

instance (rs : DwarfRegState) : Decidable (standardRules rs) := by
  unfold standardRules; infer_instance

/-- The body of `tdep_stash_frame` as a transformer of the cursor's
`frame_info` record `f`: if the frame type is still `OTHER` and all rule
checks pass, stash the standard-frame information (lines 77-95), following
the source's assignment order (the three `CFAREL` stores, then the three
`CFA` stores); otherwise leave `f` untouched (lines 96-97). -/
def tdep_stash_frame (rs : DwarfRegState) (f : UnwTdepFrame) : UnwTdepFrame :=
  if f.frame_type = FrameType.other ∧ standardRules rs then
    let f := { f with frame_type := FrameType.standard
                      cfa_reg_sp := decide (rs.cfaVal = SP)
                      cfa_reg_offset := wrap30 rs.cfaOff }
    let f := if rs.fpWhere = DwarfWhere.cfarel then
               { f with fp_cfa_offset := wrap30 rs.fpVal } else f
    let f := if rs.lrWhere = DwarfWhere.cfarel then
               { f with lr_cfa_offset := wrap30 rs.lrVal } else f
    let f := if rs.spWhere = DwarfWhere.cfarel then
               { f with sp_cfa_offset := wrap30 rs.spVal } else f
    let f := if rs.fpWhere = DwarfWhere.cfa then
               { f with fp_cfa_offset := 0 } else f
    let f := if rs.lrWhere = DwarfWhere.cfa then
               { f with lr_cfa_offset := 0 } else f
    let f := if rs.spWhere = DwarfWhere.cfa then
               { f with sp_cfa_offset := 0 } else f
    f
  else
    f

/-- Modelled from the spec: the cursor's descriptor as reset to the generic
shape before classification (the cursor-initialisation code is outside this
snippet).  `frame_type` is the generic `OTHER` type and the three saved
register offsets carry the sentinel `-1`, which the spec reserves to mean
"location invalid" / not saved (its sentinel-rejection rule); this is why a
real `CFARelative(-1)` rule is disqualified. -/
def empty_frame : UnwTdepFrame :=
  { frame_type := FrameType.other
    cfa_reg_sp := false
    cfa_reg_offset := 0
    fp_cfa_offset := -1
    lr_cfa_offset := -1
    sp_cfa_offset := -1 }

/-- The spec's `FrameDescriptor` output type: either unclassified, or a
standard frame with the CFA base flag, CFA offset, and optional saved
offsets for FP, LR, SP. -/
inductive FrameDescriptor
  | Unclassified
  | Standard (cfa_base_is_stack_pointer : Bool) (cfa_offset : Int)
      (fp_offset : Option Int) (lr_offset : Option Int)
      (sp_offset : Option Int)
deriving DecidableEq, Repr

/-- Modelled from the spec: decoding of a cached saved-register offset field
into the spec's `Option` view — the sentinel `-1` means the register is not
saved (`None`), any other value is a real CFA-relative offset (`Some`).
This matches the walker's contract in the spec's output boundary. -/
def offsetOfField (v : Int) : Option Int :=
  if v = -1 then none else some v

/-- Modelled from the spec: the descriptor view of the cursor's cached
frame record — `Standard` with the decoded fields when the frame type is
`STANDARD`, `Unclassified` otherwise. -/
def toDescriptor (f : UnwTdepFrame) : FrameDescriptor :=
  if f.frame_type = FrameType.standard then
    FrameDescriptor.Standard f.cfa_reg_sp f.cfa_reg_offset
      (offsetOfField f.fp_cfa_offset) (offsetOfField f.lr_cfa_offset)
      (offsetOfField f.sp_cfa_offset)
  else
    FrameDescriptor.Unclassified

/-- The spec's `classify(rules) -> FrameDescriptor`: run `tdep_stash_frame`
on a descriptor freshly reset to the generic shape (the spec's lifecycle:
"reset to `Unclassified` conceptually before each classification call") and
read the resulting descriptor. -/
def classify (rs : DwarfRegState) : FrameDescriptor :=
  toDescriptor (tdep_stash_frame rs empty_frame)

/-- The spec's mapping from a saved-register rule to the descriptor offset:
`Some 0` for `AtCFA`, `Some k` for `CFARelative(k)`, `None` otherwise
(`Undefined` / `SameValue`). -/
def specOffset (w : DwarfWhere) (v : Int) : Option Int :=
  match w with
  | DwarfWhere.cfa => some 0
  | DwarfWhere.cfarel => some v
  | _ => none

lemma wrap30_eq_self (v : Int) (h : v.natAbs < 2 ^ 29) : wrap30 v = v := by
  unfold wrap30
  omega

/-- When the guard holds, the result of `tdep_stash_frame` written out
field by field. -/
lemma tdep_stash_frame_pos (rs : DwarfRegState) (f : UnwTdepFrame)
    (h : f.frame_type = FrameType.other ∧ standardRules rs) :
    tdep_stash_frame rs f =
      { frame_type := FrameType.standard
        cfa_reg_sp := decide (rs.cfaVal = SP)
        cfa_reg_offset := wrap30 rs.cfaOff
        fp_cfa_offset :=
          if rs.fpWhere = DwarfWhere.cfa then 0
          else if rs.fpWhere = DwarfWhere.cfarel then wrap30 rs.fpVal
          else f.fp_cfa_offset
        lr_cfa_offset :=
          if rs.lrWhere = DwarfWhere.cfa then 0
          else if rs.lrWhere = DwarfWhere.cfarel then wrap30 rs.lrVal
          else f.lr_cfa_offset
        sp_cfa_offset :=
          if rs.spWhere = DwarfWhere.cfa then 0
          else if rs.spWhere = DwarfWhere.cfarel then wrap30 rs.spVal
          else f.sp_cfa_offset } := by
  unfold tdep_stash_frame
  rw [if_pos h]
  cases hf : rs.fpWhere <;> cases hl : rs.lrWhere <;> cases hs : rs.spWhere <;>
    simp [hf, hl, hs]

/-- When the guard fails, `tdep_stash_frame` leaves the record untouched. -/
lemma tdep_stash_frame_neg (rs : DwarfRegState) (f : UnwTdepFrame)
    (h : ¬(f.frame_type = FrameType.other ∧ standardRules rs)) :
    tdep_stash_frame rs f = f := by
  unfold tdep_stash_frame
  rw [if_neg h]

lemma classify_eq_unclassified_of_not_rules (rs : DwarfRegState)
    (h : ¬ standardRules rs) : classify rs = FrameDescriptor.Unclassified := by
  unfold classify
  rw [tdep_stash_frame_neg rs empty_frame (fun hc => h hc.2)]
  decide

lemma offsetOfField_rule (w : DwarfWhere) (v : Int) (h : savedRegOk w v) :
    offsetOfField (if w = DwarfWhere.cfa then 0
      else if w = DwarfWhere.cfarel then wrap30 v else (-1 : Int)) =
    specOffset w v := by
  rcases h with h | h | h | ⟨h, hb, hs⟩ <;> subst h
  · simp [offsetOfField, specOffset]
  · simp [offsetOfField, specOffset]
  · simp [offsetOfField, specOffset]
  · have hv : v ≠ -1 := by omega
    simp [offsetOfField, specOffset, wrap30_eq_self v hb, hv]

lemma savedRegOk_cfarel_bounds (w : DwarfWhere) (v : Int)
    (h : savedRegOk w v) (hw : w = DwarfWhere.cfarel) :
    v.natAbs < 2 ^ 29 ∧ v ≠ -1 := by
  rcases h with h1 | h1 | h1 | ⟨-, hb, hs⟩
  · rw [hw] at h1; exact absurd h1 (by decide)
  · rw [hw] at h1; exact absurd h1 (by decide)
  · rw [hw] at h1; exact absurd h1 (by decide)
  · exact ⟨hb, by omega⟩

/-- A rule set passing every individual check except that its CFA base
register is a general-purpose register (x7) rather than FP or SP. -/
def badBaseRules : DwarfRegState :=
  { cfaWhere := DwarfWhere.reg
    cfaVal := 7
    cfaOff := 16
    ret_addr_column := LR
    fpWhere := DwarfWhere.cfarel
    fpVal := -16
    lrWhere := DwarfWhere.cfarel
    lrVal := -8
    spWhere := DwarfWhere.undef
    spVal := 0 }

/-- A cursor descriptor already holding a standard-frame classification
before the call. -/
def staleStandardFrame : UnwTdepFrame :=
  { frame_type := FrameType.standard
    cfa_reg_sp := true
    cfa_reg_offset := 16
    fp_cfa_offset := -16
    lr_cfa_offset := -8
    sp_cfa_offset := -1 }

/-- The rule set of the spec's Scenario A: CFA = SP + 16, return address in
LR, FP saved at CFA-16, LR saved at CFA-8, SP undefined. -/
def scenarioA : DwarfRegState :=
  { cfaWhere := DwarfWhere.reg
    cfaVal := SP
    cfaOff := 16
    ret_addr_column := LR
    fpWhere := DwarfWhere.cfarel
    fpVal := -16
    lrWhere := DwarfWhere.cfarel
    lrVal := -8
    spWhere := DwarfWhere.undef
    spVal := 0 }

/-- The rule set of the spec's Scenario B: CFA = FP + 0, return address in
LR, FP same-value, LR saved exactly at the CFA, SP undefined. -/
def scenarioB : DwarfRegState :=
  { cfaWhere := DwarfWhere.reg
    cfaVal := FP
    cfaOff := 0
    ret_addr_column := LR
    fpWhere := DwarfWhere.same
    fpVal := 0
    lrWhere := DwarfWhere.cfa
    lrVal := 0
    spWhere := DwarfWhere.undef
    spVal := 0 }

/-- An otherwise canonical rule set whose CFA offset is exactly `2 ^ 29`,
violating the magnitude bound. -/
def bigOffRules : DwarfRegState :=
  { scenarioA with cfaOff := 2 ^ 29 }

/-- An otherwise canonical rule set whose FP rule is `CFARelative(-1)`,
the reserved "location invalid" sentinel. -/
def sentinelRules : DwarfRegState :=
  { scenarioA with fpWhere := DwarfWhere.cfarel, fpVal := -1 }

/-- An otherwise canonical rule set whose return-address column names the
stack pointer instead of the link register. -/
def retInSpRules : DwarfRegState :=
  { scenarioA with ret_addr_column := SP }

/-- C1: a rule set passing all checks — CFA base is FP or SP with offset of
magnitude below `2 ^ 29`, return address in LR, and each of FP, LR, SP
`Undefined`, `SameValue`, `AtCFA`, or `CFARelative(k)` with `|k| < 2 ^ 29`
and `k ≠ -1` — classifies as a `Standard` descriptor whose base flag is
`base = SP`, whose `cfa_offset` is copied verbatim, and whose FP/LR/SP
offsets are `some 0` for `AtCFA`, `some k` for `CFARelative(k)`, and `none`
for `Undefined` or `SameValue`. -/
theorem classify_standard_descriptor (rs : DwarfRegState)
    (hwhere : rs.cfaWhere = DwarfWhere.reg)
    (hbase : rs.cfaVal = FP ∨ rs.cfaVal = SP)
    (hoff : rs.cfaOff.natAbs < 2 ^ 29)
    (hret : rs.ret_addr_column = LR)
    (hfp : savedRegOk rs.fpWhere rs.fpVal)
    (hlr : savedRegOk rs.lrWhere rs.lrVal)
    (hsp : savedRegOk rs.spWhere rs.spVal) :
    classify rs =
      FrameDescriptor.Standard (decide (rs.cfaVal = SP)) rs.cfaOff
        (specOffset rs.fpWhere rs.fpVal) (specOffset rs.lrWhere rs.lrVal)
        (specOffset rs.spWhere rs.spVal) := by
  have hrules : standardRules rs := ⟨hwhere, hbase, hoff, hret, hfp, hlr, hsp⟩
  unfold classify
  rw [tdep_stash_frame_pos rs empty_frame ⟨rfl, hrules⟩]
  simp [toDescriptor, empty_frame, wrap30_eq_self rs.cfaOff hoff,
    offsetOfField_rule rs.fpWhere rs.fpVal hfp,
    offsetOfField_rule rs.lrWhere rs.lrVal hlr,
    offsetOfField_rule rs.spWhere rs.spVal hsp]

/-- C1 witness: Scenario B instantiates the standard-classification
theorem and evaluates to the expected descriptor. -/
theorem classify_standard_descriptor_witness :
    classify scenarioB = FrameDescriptor.Standard false 0 none (some 0) none :=
  (classify_standard_descriptor scenarioB rfl (Or.inl rfl) (by decide) rfl
    (by decide) (by decide) (by decide)).trans (by decide)

/-- C2 counterexample: `badBaseRules` fails the base-register check, yet
calling the classifier on a cursor whose descriptor already holds a
standard classification does not leave the descriptor `Unclassified` — the
stale standard descriptor survives, so the claim's "regardless of the
descriptor's contents before the call" is false. -/
theorem stash_failing_keeps_stale_descriptor :
    ¬ standardRules badBaseRules ∧
    toDescriptor (tdep_stash_frame badBaseRules staleStandardFrame) ≠
      FrameDescriptor.Unclassified := by
  decide

/-- C2 (amended): a rule set failing any classification check leaves the
cursor's descriptor record exactly as it was; in particular, starting from
the generic reset descriptor, the result is `Unclassified`. -/
theorem stash_failing_leaves_frame (rs : DwarfRegState) (f : UnwTdepFrame)
    (h : ¬ standardRules rs) :
    tdep_stash_frame rs f = f ∧ classify rs = FrameDescriptor.Unclassified :=
  ⟨tdep_stash_frame_neg rs f (fun hc => h hc.2),
    classify_eq_unclassified_of_not_rules rs h⟩

/-- C2 witness: the amended statement evaluated at `badBaseRules` and a
stale standard descriptor. -/
theorem stash_failing_leaves_frame_witness :
    tdep_stash_frame badBaseRules staleStandardFrame = staleStandardFrame ∧
    classify badBaseRules = FrameDescriptor.Unclassified :=
  stash_failing_leaves_frame badBaseRules staleStandardFrame (by decide)

/-- C3: a CFA base register that is neither FP nor SP forces
`Unclassified`, whatever the other fields are. -/
theorem classify_bad_base_unclassified (rs : DwarfRegState)
    (h1 : rs.cfaVal ≠ FP) (h2 : rs.cfaVal ≠ SP) :
    classify rs = FrameDescriptor.Unclassified :=
  classify_eq_unclassified_of_not_rules rs (fun hr => hr.2.1.elim h1 h2)

/-- C3 witness: the base register x7 is rejected. -/
theorem classify_bad_base_unclassified_witness :
    classify badBaseRules = FrameDescriptor.Unclassified :=
  classify_bad_base_unclassified badBaseRules (by decide) (by decide)

/-- C4: a CFA offset of magnitude at least `2 ^ 29` forces `Unclassified`,
whatever the other fields are. -/
theorem classify_big_offset_unclassified (rs : DwarfRegState)
    (h : 2 ^ 29 ≤ rs.cfaOff.natAbs) :
    classify rs = FrameDescriptor.Unclassified :=
  classify_eq_unclassified_of_not_rules rs
    (fun hr => absurd hr.2.2.1 (not_lt.mpr h))

/-- C4 witness: an otherwise canonical rule set with CFA offset `2 ^ 29`
is rejected. -/
theorem classify_big_offset_unclassified_witness :
    classify bigOffRules = FrameDescriptor.Unclassified :=
  classify_big_offset_unclassified bigOffRules (by decide)

lemma not_savedRegOk_neg_one : ¬ savedRegOk DwarfWhere.cfarel (-1) := by
  decide

/-- C5: a `CFARelative(-1)` rule on any of FP, LR, SP forces
`Unclassified`, even when every other field is canonical. -/
theorem classify_sentinel_unclassified (rs : DwarfRegState)
    (h : (rs.fpWhere = DwarfWhere.cfarel ∧ rs.fpVal = -1) ∨
         (rs.lrWhere = DwarfWhere.cfarel ∧ rs.lrVal = -1) ∨
         (rs.spWhere = DwarfWhere.cfarel ∧ rs.spVal = -1)) :
    classify rs = FrameDescriptor.Unclassified := by
  apply classify_eq_unclassified_of_not_rules
  rintro ⟨-, -, -, -, hfp, hlr, hsp⟩
  rcases h with ⟨hw, hv⟩ | ⟨hw, hv⟩ | ⟨hw, hv⟩
  · rw [hw, hv] at hfp; exact not_savedRegOk_neg_one hfp
  · rw [hw, hv] at hlr; exact not_savedRegOk_neg_one hlr
  · rw [hw, hv] at hsp; exact not_savedRegOk_neg_one hsp

/-- C5 witness: Scenario A with the FP rule replaced by `CFARelative(-1)`
is rejected. -/
theorem classify_sentinel_unclassified_witness :
    classify sentinelRules = FrameDescriptor.Unclassified :=
  classify_sentinel_unclassified sentinelRules (Or.inl ⟨rfl, rfl⟩)

/-- C6: a return-address column other than the link register forces
`Unclassified`. -/
theorem classify_ret_addr_not_lr_unclassified (rs : DwarfRegState)
    (h : rs.ret_addr_column ≠ LR) :
    classify rs = FrameDescriptor.Unclassified :=
  classify_eq_unclassified_of_not_rules rs (fun hr => h hr.2.2.2.1)

/-- C6 witness: a rule set whose return-address column names the stack
pointer is rejected. -/
theorem classify_ret_addr_not_lr_unclassified_witness :
    classify retInSpRules = FrameDescriptor.Unclassified :=
  classify_ret_addr_not_lr_unclassified retInSpRules (by decide)

/-- C7: classification is idempotent — running `tdep_stash_frame` a second
time with the same rule set on the resulting cursor descriptor changes
nothing. -/
theorem tdep_stash_frame_idempotent (rs : DwarfRegState) (f : UnwTdepFrame) :
    tdep_stash_frame rs (tdep_stash_frame rs f) = tdep_stash_frame rs f := by
  by_cases h : f.frame_type = FrameType.other ∧ standardRules rs
  · rw [tdep_stash_frame_pos rs f h]
    apply tdep_stash_frame_neg
    rintro ⟨hft, -⟩
    exact FrameType.noConfusion hft
  · rw [tdep_stash_frame_neg rs f h]
    exact tdep_stash_frame_neg rs f h

/-- C8: Scenario A — CFA = SP + 16, return address in LR,
FP = `CFARelative(-16)`, LR = `CFARelative(-8)`, SP undefined — yields the
standard descriptor with base flag `true`, offset 16, FP offset `some
(-16)`, LR offset `some (-8)` and SP offset `none`. -/
theorem classify_scenarioA :
    classify scenarioA =
      FrameDescriptor.Standard true 16 (some (-16)) (some (-8)) none := by
  decide

/-- C9: when the cursor's descriptor already has a non-generic frame type
on entry, the call leaves every field of the descriptor unchanged,
whatever the rule set contains. -/
theorem stash_nonother_unchanged (rs : DwarfRegState) (f : UnwTdepFrame)
    (h : f.frame_type ≠ FrameType.other) :
    tdep_stash_frame rs f = f :=
  tdep_stash_frame_neg rs f (fun hc => h hc.1)

/-- C9 witness: even the fully canonical Scenario A rule set leaves an
already-standard descriptor untouched. -/
theorem stash_nonother_unchanged_witness :
    tdep_stash_frame scenarioA staleStandardFrame = staleStandardFrame :=
  stash_nonother_unchanged scenarioA staleStandardFrame (by decide)

/-- C10: whenever the call turns a generic descriptor into a standard one,
every offset it wrote is bounded and non-sentinel: the stored CFA offset
has magnitude below `2 ^ 29`, a register classified `AtCFA` gets offset 0,
and a register classified `CFARelative(k)` gets exactly `k`, with
`|k| < 2 ^ 29` and `k ≠ -1`. -/
theorem stash_standard_offsets_in_range (rs : DwarfRegState)
    (f : UnwTdepFrame)
    (hother : f.frame_type = FrameType.other)
    (hstd : (tdep_stash_frame rs f).frame_type = FrameType.standard) :
    (tdep_stash_frame rs f).cfa_reg_offset.natAbs < 2 ^ 29 ∧
    (rs.fpWhere = DwarfWhere.cfa →
      (tdep_stash_frame rs f).fp_cfa_offset = 0) ∧
    (rs.fpWhere = DwarfWhere.cfarel →
      (tdep_stash_frame rs f).fp_cfa_offset = rs.fpVal ∧
      (tdep_stash_frame rs f).fp_cfa_offset.natAbs < 2 ^ 29 ∧
      (tdep_stash_frame rs f).fp_cfa_offset ≠ -1) ∧
    (rs.lrWhere = DwarfWhere.cfa →
      (tdep_stash_frame rs f).lr_cfa_offset = 0) ∧
    (rs.lrWhere = DwarfWhere.cfarel →
      (tdep_stash_frame rs f).lr_cfa_offset = rs.lrVal ∧
      (tdep_stash_frame rs f).lr_cfa_offset.natAbs < 2 ^ 29 ∧
      (tdep_stash_frame rs f).lr_cfa_offset ≠ -1) ∧
    (rs.spWhere = DwarfWhere.cfa →
      (tdep_stash_frame rs f).sp_cfa_offset = 0) ∧
    (rs.spWhere = DwarfWhere.cfarel →
      (tdep_stash_frame rs f).sp_cfa_offset = rs.spVal ∧
      (tdep_stash_frame rs f).sp_cfa_offset.natAbs < 2 ^ 29 ∧
      (tdep_stash_frame rs f).sp_cfa_offset ≠ -1) := by
  have hc : f.frame_type = FrameType.other ∧ standardRules rs := by
    by_contra hc
    rw [tdep_stash_frame_neg rs f hc, hother] at hstd
    exact FrameType.noConfusion hstd
  obtain ⟨-, -, hoff, -, hfp, hlr, hsp⟩ := hc.2
  rw [tdep_stash_frame_pos rs f hc]
  refine ⟨?_, ?_, ?_, ?_, ?_, ?_, ?_⟩
  · simp [wrap30_eq_self rs.cfaOff hoff]
    exact hoff
  · intro h
    simp [h]
  · intro h
    obtain ⟨hb, hs⟩ := savedRegOk_cfarel_bounds rs.fpWhere rs.fpVal hfp h
    simp [h, wrap30_eq_self rs.fpVal hb]
    exact ⟨hb, hs⟩
  · intro h
    simp [h]
  · intro h
    obtain ⟨hb, hs⟩ := savedRegOk_cfarel_bounds rs.lrWhere rs.lrVal hlr h
    simp [h, wrap30_eq_self rs.lrVal hb]
    exact ⟨hb, hs⟩
  · intro h
    simp [h]
  · intro h
    obtain ⟨hb, hs⟩ := savedRegOk_cfarel_bounds rs.spWhere rs.spVal hsp h
    simp [h, wrap30_eq_self rs.spVal hb]
    exact ⟨hb, hs⟩

/-- C10 witness: the bound-and-non-sentinel property instantiated at
Scenario A starting from the reset descriptor. -/
theorem stash_standard_offsets_in_range_witness :
    (tdep_stash_frame scenarioA empty_frame).cfa_reg_offset.natAbs < 2 ^ 29 ∧
    (scenarioA.fpWhere = DwarfWhere.cfa →
      (tdep_stash_frame scenarioA empty_frame).fp_cfa_offset = 0) ∧
    (scenarioA.fpWhere = DwarfWhere.cfarel →
      (tdep_stash_frame scenarioA empty_frame).fp_cfa_offset = scenarioA.fpVal ∧
      (tdep_stash_frame scenarioA empty_frame).fp_cfa_offset.natAbs < 2 ^ 29 ∧
      (tdep_stash_frame scenarioA empty_frame).fp_cfa_offset ≠ -1) ∧
    (scenarioA.lrWhere = DwarfWhere.cfa →
      (tdep_stash_frame scenarioA empty_frame).lr_cfa_offset = 0) ∧
    (scenarioA.lrWhere = DwarfWhere.cfarel →
      (tdep_stash_frame scenarioA empty_frame).lr_cfa_offset = scenarioA.lrVal ∧
      (tdep_stash_frame scenarioA empty_frame).lr_cfa_offset.natAbs < 2 ^ 29 ∧
      (tdep_stash_frame scenarioA empty_frame).lr_cfa_offset ≠ -1) ∧
    (scenarioA.spWhere = DwarfWhere.cfa →
      (tdep_stash_frame scenarioA empty_frame).sp_cfa_offset = 0) ∧
    (scenarioA.spWhere = DwarfWhere.cfarel →
      (tdep_stash_frame scenarioA empty_frame).sp_cfa_offset = scenarioA.spVal ∧
      (tdep_stash_frame scenarioA empty_frame).sp_cfa_offset.natAbs < 2 ^ 29 ∧
      (tdep_stash_frame scenarioA empty_frame).sp_cfa_offset ≠ -1) :=
  stash_standard_offsets_in_range scenarioA empty_frame (by decide) (by decide)
